import Mathlib

/-!
Shallow embedding of the Blogicum blog application
(src/blogicum/blog/mixins.py, src/blogicum/blog/post_queries.py,
src/blogicum/blog/views.py).

Querysets are modelled as Lean lists, the database as explicit record of
lists, timestamps as naturals, and request handlers as pure functions from
the database and request data to a response together with the (possibly
updated) database.  `Http404` is modelled by an `Except` error or a
dedicated `Response` constructor.
-/

/-- Modelled from the spec: the `Category` model (models.py is not part of
src/): name, slug and published flag (`is_published` as used by the filters
in mixins.py and views.py). -/
structure Category where
  id : Nat
  slug : String
  is_published : Bool
deriving Repr, DecidableEq

/-- Modelled from the spec: the `User` model: authentication identity with
the `username` and `is_superuser` fields read by views.py. -/
structure User where
  id : Nat
  username : String
  is_superuser : Bool
deriving Repr, DecidableEq

/-- Modelled from the spec: the `Post` model: author and category
references, published flag and publication timestamp, as read by the query
code in mixins.py, post_queries.py and views.py.  The spec's single
"published flag" is the field that mixins.py and views.py access as
`is_published` and post_queries.py accesses as `published`. -/
structure Post where
  id : Nat
  author : Nat
  category : Nat
  is_published : Bool
  pub_date : Nat
deriving Repr, DecidableEq

/-- Modelled from the spec: the `Comment` model: reference to parent post,
author reference and published flag, as read by the query code. -/
structure Comment where
  id : Nat
  post_id : Nat
  author : Nat
  is_published : Bool
deriving Repr, DecidableEq

/-- The database state: the object tables the three source files query. -/
structure DB where
  users : List User
  categories : List Category
  posts : List Post
  comments : List Comment
deriving Repr, DecidableEq

/-- Lookup of `post.category` followed by reading `is_published`: the
meaning of the ORM filter `category__is_published=True` for a post. -/
def categoryPublished (db : DB) (p : Post) : Bool :=
  (db.categories.find? (fun c => c.id == p.category)).any (fun c => c.is_published)

/-- Embedding of `Count("comments", filter=Q(comments__is_published=True))` in
mixins.py: the number of the post's comments whose published flag is
true. -/
def publishedCommentCount (db : DB) (p : Post) : Nat :=
  (db.comments.filter (fun c => c.post_id == p.id && c.is_published)).length

/-- Embedding of `Count("comments")` in post_queries.py, and `post.comments.count()` in
views.py: the number of all the post's comments. -/
def allCommentCount (db : DB) (p : Post) : Nat :=
  (db.comments.filter (fun c => c.post_id == p.id)).length

/-- One insertion step of the ordering `order_by("-pub_date")`. -/
def insertByPubDateDesc (p : Post) : List Post → List Post
  | [] => [p]
  | q :: rest =>
      if q.pub_date ≤ p.pub_date then p :: q :: rest
      else q :: insertByPubDateDesc p rest

/-- The ordering `order_by("-pub_date")` in mixins.py: sort by publication
timestamp, descending. -/
def order_by_pub_date_desc (l : List Post) : List Post :=
  l.foldr insertByPubDateDesc []

/-- An annotated queryset row: the post together with the optional
`comment_count` annotation. -/
abbrev AnnPost := Post × Option Nat

namespace Mixins

/-- Embedding of `get_post_queryset` from src/blogicum/blog/mixins.py: optionally filter
by `is_published=True, category__is_published=True, pub_date__lte=now`;
optionally annotate `comment_count` (published comments only) and order by
`-pub_date`. -/
def get_post_queryset (db : DB) (manager : List Post)
    (filter_published annotate_comments : Bool) (now : Nat) : List AnnPost :=
  let queryset :=
    if filter_published then
      manager.filter (fun p =>
        p.is_published && categoryPublished db p && decide (p.pub_date ≤ now))
    else manager
  if annotate_comments then
    (order_by_pub_date_desc queryset).map
      (fun p => (p, some (publishedCommentCount db p)))
  else
    queryset.map (fun p => (p, none))

end Mixins

namespace PostQueries

/-- Embedding of `get_post_queryset` from src/blogicum/blog/post_queries.py: optionally
filter by `published=True` (the published flag only); optionally annotate
`comment_count` with `Count("comments")` (all comments); no ordering. -/
def get_post_queryset (db : DB) (manager : List Post)
    (filter_published annotate_comments : Bool) : List AnnPost :=
  let queryset :=
    if filter_published then manager.filter (fun p => p.is_published)
    else manager
  if annotate_comments then
    queryset.map (fun p => (p, some (allCommentCount db p)))
  else
    queryset.map (fun p => (p, none))

end PostQueries

/-- Embedding of `PostListMixin.get_queryset` from mixins.py: the queryset of the public
post list (GET /), `get_post_queryset(Post.objects.all(), True, True)`. -/
def PostListMixin.get_queryset (db : DB) (now : Nat) : List AnnPost :=
  Mixins.get_post_queryset db db.posts true true now

/-- Embedding of `PostListView.get_context_data` from views.py, the `comment_counts`
entry: `{post.id: post.comments.count() for post in self.object_list}`,
a map from post id to the count of ALL of the post's comments. -/
def PostListView.comment_counts (db : DB) (now : Nat) : List (Nat × Nat) :=
  (PostListMixin.get_queryset db now).map
    (fun pc => (pc.1.id, allCommentCount db pc.1))

/-- The viewer of a request: `request.user`, either an authenticated user
or `none` for the framework's anonymous user. -/
abbrev Viewer := Option User

/-- Embedding of `post.author == self.request.user` for a possibly anonymous viewer
(an anonymous user never equals a model author). -/
def viewerIsAuthor (v : Viewer) (author : Nat) : Bool :=
  match v with
  | none => false
  | some u => author == u.id

/-- Embedding of `self.request.user.is_superuser` (false for the anonymous user). -/
def viewerIsSuperuser (v : Viewer) : Bool :=
  match v with
  | none => false
  | some u => u.is_superuser

/-- Embedding of `PostDetailView.get_object` from views.py: fetch the post by pk or 404;
then 404 when the post is not published and the viewer is neither the
author nor a superuser; otherwise return the post. -/
def PostDetailView.get_object (db : DB) (v : Viewer) (post_id : Nat) :
    Except Nat Post :=
  match db.posts.find? (fun p => p.id == post_id) with
  | none => .error 404
  | some post =>
      if !post.is_published && !viewerIsAuthor v post.author
          && !viewerIsSuperuser v then
        .error 404
      else
        .ok post

/-- Embedding of `CategoryPostListView.get_queryset` from views.py: fetch the category
by slug or 404, 404 when it is unpublished, else the posts of the category
that are published with `pub_date <= now`. -/
def CategoryPostListView.get_queryset (db : DB) (category_slug : String)
    (now : Nat) : Except Nat (List Post) :=
  match db.categories.find? (fun c => c.slug == category_slug) with
  | none => .error 404
  | some category =>
      if !category.is_published then .error 404
      else
        .ok (db.posts.filter (fun p =>
          p.category == category.id && p.is_published
            && decide (p.pub_date ≤ now)))

/-- Embedding of `ProfileView.get_queryset` from views.py: fetch the user by username or
404, then ALL posts whose author is that user.  The viewer is not a
parameter: the code never consults `request.user` when building this
queryset (its `get_context_data` only holds a dead
`if ... == user: pass`). -/
def ProfileView.get_queryset (db : DB) (username : String) :
    Except Nat (List Post) :=
  match db.users.find? (fun u => u.username == username) with
  | none => .error 404
  | some user => .ok (db.posts.filter (fun p => p.author == user.id))

/-- Embedding of `AuthorRequiredMixin.test_func` from views.py: the owner check,
`obj.author == self.request.user`. -/
def AuthorRequiredMixin.test_func (obj_author : Nat) (v : Viewer) : Bool :=
  viewerIsAuthor v obj_author

/-- Embedding of `reverse("blog:post_detail", post_id)`: URL of a post's detail page. -/
def post_detail_url (post_id : Nat) : String :=
  "/posts/" ++ toString post_id ++ "/"

/-- An HTTP response as the handlers distinguish them: a redirect to a
URL, a 404, a permission-denied (403) page, or a rendered page. -/
inductive Response where
  | redirect (url : String)
  | notFound
  | forbidden
  | page
deriving Repr, DecidableEq

/-- Embedding of `EditPostView` from views.py, handling a request by an authenticated
viewer: resolve the post by `post_id` (404 when absent); when the owner
check `AuthorRequiredMixin.test_func` fails, `handle_no_permission`
redirects to the post's detail page without touching the database; when it
succeeds, the `UpdateView` saves the edited fields (`update`) and
redirects.  Returns the response together with the resulting database. -/
def EditPostView.handle (db : DB) (viewer : User) (post_id : Nat)
    (update : Post → Post) : Response × DB :=
  match db.posts.find? (fun p => p.id == post_id) with
  | none => (.notFound, db)
  | some obj =>
      if AuthorRequiredMixin.test_func obj.author (some viewer) then
        let posts := db.posts.map
          (fun p => if p.id == post_id then update p else p)
        (.redirect (post_detail_url post_id), { db with posts := posts })
      else
        (.redirect (post_detail_url post_id), db)

/-- Embedding of `EditCommentView.get_object` and `DeleteCommentView.get_object` from
views.py: `get_object_or_404(Comment, id=comment_id, post_id=post_id)`. -/
def CommentView.get_object (db : DB) (post_id comment_id : Nat) :
    Option Comment :=
  db.comments.find? (fun c => c.id == comment_id && c.post_id == post_id)

/-- Embedding of `EditCommentView` from views.py, handling a request by an authenticated
viewer: `get_object` 404s when no comment matches both ids; a non-author
gets the framework's permission-denied response; the author's edit is
saved and answered with a redirect to the post's detail page. -/
def EditCommentView.handle (db : DB) (viewer : User) (post_id comment_id : Nat)
    (update : Comment → Comment) : Response × DB :=
  match CommentView.get_object db post_id comment_id with
  | none => (.notFound, db)
  | some obj =>
      if AuthorRequiredMixin.test_func obj.author (some viewer) then
        let comments := db.comments.map
          (fun c => if c.id == comment_id then update c else c)
        (.redirect (post_detail_url post_id), { db with comments := comments })
      else
        (.forbidden, db)

/-- Embedding of `DeleteCommentView` from views.py, handling a request by an
authenticated viewer: `get_object` 404s when no comment matches both ids;
a non-author gets the framework's permission-denied response; the author's
delete removes the comment and redirects to the post's detail page. -/
def DeleteCommentView.handle (db : DB) (viewer : User)
    (post_id comment_id : Nat) : Response × DB :=
  match CommentView.get_object db post_id comment_id with
  | none => (.notFound, db)
  | some obj =>
      if AuthorRequiredMixin.test_func obj.author (some viewer) then
        let comments := db.comments.filter (fun c => !(c.id == comment_id))
        (.redirect (post_detail_url post_id), { db with comments := comments })
      else
        (.forbidden, db)

namespace Paginator

/-- Embedding of `Paginator.num_pages` (django.core.paginator, called with
`orphans=0`, `allow_empty_first_page=True`): `ceil(max(1, count) /
per_page)`. -/
def num_pages (count per_page : Nat) : Nat :=
  (max 1 count + per_page - 1) / per_page

/-- Embedding of `Paginator.get_page` (django.core.paginator), reduced to the page
number it settles on.  `validate_number` turns a non-numeric argument into
`PageNotAnInteger`, caught as page 1; a number below 1 or above
`num_pages` raises `EmptyPage`, caught as the last page. -/
def get_page_number (count per_page : Nat) (page : Option Int) : Nat :=
  let np := num_pages count per_page
  match page with
  | none => 1
  | some n => if n < 1 then np else if n > (np : Int) then np else n.toNat

/-- The items of the page `Paginator.get_page` returns. -/
def page_items (items : List Post) (per_page : Nat) (page : Option Int) :
    List Post :=
  let n := get_page_number items.length per_page page
  (items.drop ((n - 1) * per_page)).take per_page

end Paginator

/-- A decimal digit of the page parameter, as Python `int()` reads it. -/
def py_digit (c : Char) : Option Nat :=
  if 48 ≤ c.toNat && c.toNat ≤ 57 then some (c.toNat - 48) else none

/-- The decimal digits of the page parameter: `none` when empty or when a
non-digit occurs. -/
def py_digits (l : List Char) : Option Nat :=
  if l.isEmpty then none
  else l.foldl (fun acc c =>
    match acc, py_digit c with
    | some n, some d => some (n * 10 + d)
    | _, _ => none) (some 0)

/-- Python `int(s)`: an optional minus sign followed by decimal digits;
anything else raises, i.e. is `none` (`PageNotAnInteger` in Django's
`validate_number`). -/
def py_int (s : String) : Option Int :=
  match s.data with
  | c :: rest =>
      if c == '-' then (py_digits rest).map (fun n => -(n : Int))
      else (py_digits (c :: rest)).map (fun n => (n : Int))
  | [] => none

/-- Python `int(s)` on the raw `page` query parameter: `none` for a
missing or non-numeric parameter (`PageNotAnInteger` in
`validate_number`). -/
def parse_page_param (s : Option String) : Option Int :=
  s.bind py_int

/-- Embedding of `CategoryPostListView.get_paginated_queryset` from views.py:
`Paginator(queryset, 10).get_page(request.GET.get("page"))`, returned as
the settled page number together with the page's items. -/
def CategoryPostListView.get_paginated_queryset (queryset : List Post)
    (page_param : Option String) : Nat × List Post :=
  let page := parse_page_param page_param
  (Paginator.get_page_number queryset.length 10 page,
   Paginator.page_items queryset 10 page)

/-- Embedding of `ProfileView.get_paginated_queryset` from views.py: identical to the
category one, `Paginator(queryset, 10).get_page(request.GET.get("page"))`. -/
def ProfileView.get_paginated_queryset (queryset : List Post)
    (page_param : Option String) : Nat × List Post :=
  let page := parse_page_param page_param
  (Paginator.get_page_number queryset.length 10 page,
   Paginator.page_items queryset 10 page)

/- String constants used by the concrete scenarios below. -/

def techSlug : String := "tech"

def aliceName : String := "alice"

def pageZero : String := "0"

def pageAbc : String := "abc"

def pageNinetyNine : String := "99"

/- Helper lemmas about the `order_by("-pub_date")` embedding. -/

theorem mem_insertByPubDateDesc (p q : Post) (l : List Post) :
    q ∈ insertByPubDateDesc p l ↔ q = p ∨ q ∈ l := by
  induction l with
  | nil => simp [insertByPubDateDesc]
  | cons a t ih =>
      rw [insertByPubDateDesc]
      split
      · simp [List.mem_cons]
      · rw [List.mem_cons, ih, List.mem_cons]
        tauto

theorem pairwise_insertByPubDateDesc (p : Post) (l : List Post)
    (h : l.Pairwise (fun a b => b.pub_date ≤ a.pub_date)) :
    (insertByPubDateDesc p l).Pairwise (fun a b => b.pub_date ≤ a.pub_date) := by
  induction l with
  | nil => simp [insertByPubDateDesc]
  | cons a t ih =>
      rcases List.pairwise_cons.mp h with ⟨ha, ht⟩
      rw [insertByPubDateDesc]
      split
      · rename_i hle
        refine List.pairwise_cons.mpr ⟨?_, h⟩
        intro b hb
        rcases List.mem_cons.mp hb with rfl | hbt
        · exact hle
        · exact le_trans (ha b hbt) hle
      · rename_i hgt
        refine List.pairwise_cons.mpr ⟨?_, ih ht⟩
        intro b hb
        rcases (mem_insertByPubDateDesc p b t).mp hb with rfl | hbt
        · exact le_of_not_le hgt
        · exact ha b hbt

theorem mem_order_by_pub_date_desc (l : List Post) (q : Post) :
    q ∈ order_by_pub_date_desc l ↔ q ∈ l := by
  induction l with
  | nil => simp [order_by_pub_date_desc]
  | cons a t ih =>
      show q ∈ insertByPubDateDesc a (order_by_pub_date_desc t) ↔ _
      rw [mem_insertByPubDateDesc, ih, List.mem_cons]

theorem pairwise_order_by_pub_date_desc (l : List Post) :
    (order_by_pub_date_desc l).Pairwise (fun a b => b.pub_date ≤ a.pub_date) := by
  induction l with
  | nil => simp [order_by_pub_date_desc]
  | cons a t ih => exact pairwise_insertByPubDateDesc a _ ih

/-- The public list queryset, unfolded: filter the visibility predicate,
order by publication timestamp descending, annotate the published-comment
count. -/
theorem PostListMixin_get_queryset_unfold (db : DB) (now : Nat) :
    PostListMixin.get_queryset db now =
      (order_by_pub_date_desc (db.posts.filter (fun p =>
         p.is_published && categoryPublished db p
           && decide (p.pub_date ≤ now)))).map
        (fun p => (p, some (publishedCommentCount db p))) := rfl

/-- C1: a post appears in the public post list (GET /) iff its published
flag is true, its category's published flag is true, and its publication
timestamp is not after the current time. -/
theorem public_list_mem_iff (db : DB) (now : Nat) (p : Post)
    (hp : p ∈ db.posts) :
    (∃ c, (p, c) ∈ PostListMixin.get_queryset db now) ↔
      p.is_published = true ∧ categoryPublished db p = true
        ∧ p.pub_date ≤ now := by
  rw [PostListMixin_get_queryset_unfold]
  constructor
  · rintro ⟨c, hc⟩
    rcases List.mem_map.mp hc with ⟨q, hq, hqe⟩
    rcases Prod.mk.injEq .. ▸ hqe with ⟨rfl, -⟩
    have hmem := (mem_order_by_pub_date_desc _ _).mp hq
    have hflt := (List.mem_filter.mp hmem).2
    simpa [Bool.and_eq_true, decide_eq_true_eq, and_assoc] using hflt
  · rintro ⟨h1, h2, h3⟩
    refine ⟨some (publishedCommentCount db p), List.mem_map.mpr ⟨p, ?_, rfl⟩⟩
    refine (mem_order_by_pub_date_desc _ _).mpr (List.mem_filter.mpr ⟨hp, ?_⟩)
    simp [h1, h2, h3]

def cat1 : Category := { id := 1, slug := techSlug, is_published := true }

def post1 : Post :=
  { id := 1, author := 1, category := 1, is_published := true, pub_date := 3 }

def db1 : DB :=
  { users := [], categories := [cat1], posts := [post1], comments := [] }

/-- C1 witness: the iff instantiated at a concrete database. -/
theorem public_list_mem_iff_witness :
    post1 ∈ db1.posts ∧
      ((∃ c, (post1, c) ∈ PostListMixin.get_queryset db1 10) ↔
        post1.is_published = true ∧ categoryPublished db1 post1 = true
          ∧ post1.pub_date ≤ 10) :=
  ⟨by decide, public_list_mem_iff db1 10 post1 (by decide)⟩

def post2 : Post :=
  { id := 1, author := 1, category := 1, is_published := true, pub_date := 0 }

def comment2 : Comment :=
  { id := 1, post_id := 1, author := 2, is_published := false }

def db2 : DB :=
  { users := [], categories := [cat1], posts := [post2],
    comments := [comment2] }

/-- C2 counterexample: in a database whose only post is shown in the
public listing and carries exactly one UNPUBLISHED comment, the
`comment_counts` mapping that `PostListView.get_context_data` attaches to
the listing gives that post the count 1, while the number of its published
comments is 0. -/
theorem comment_counts_cex :
    PostListView.comment_counts db2 5 = [(1, 1)] ∧
      PostListMixin.get_queryset db2 5 = [(post2, some 0)] ∧
      publishedCommentCount db2 post2 = 0 ∧ post2.id = 1 := by
  decide

/-- C2 amended: for every post shown in a post listing, the queryset's
`comment_count` ANNOTATION equals the number of its published comments;
but `PostListView` additionally attaches a `comment_counts` mapping that
sends the post's id to the count of ALL its comments, unpublished ones
included. -/
theorem listing_comment_count_policy (db : DB) (now : Nat) (p : Post)
    (c : Option Nat) (h : (p, c) ∈ PostListMixin.get_queryset db now) :
    c = some (publishedCommentCount db p) ∧
      (p.id, allCommentCount db p) ∈ PostListView.comment_counts db now := by
  constructor
  · rw [PostListMixin_get_queryset_unfold] at h
    rcases List.mem_map.mp h with ⟨q, hq, hqe⟩
    rcases Prod.mk.injEq .. ▸ hqe with ⟨rfl, rfl⟩
    rfl
  · exact List.mem_map.mpr ⟨(p, c), h, rfl⟩

/-- C2 witness: the amended statement instantiated at the concrete
database of the counterexample scenario. -/
theorem listing_comment_count_policy_witness :
    (post2, some 0) ∈ PostListMixin.get_queryset db2 5 ∧
      (some 0 = some (publishedCommentCount db2 post2) ∧
        (post2.id, allCommentCount db2 post2) ∈
          PostListView.comment_counts db2 5) :=
  ⟨by decide, listing_comment_count_policy db2 5 post2 (some 0) (by decide)⟩

def alice : User := { id := 1, username := aliceName, is_superuser := false }

def draft3 : Post :=
  { id := 1, author := 1, category := 1, is_published := false, pub_date := 0 }

def db3 : DB :=
  { users := [alice], categories := [cat1], posts := [draft3],
    comments := [] }

/-- C3: the profile listing is built without consulting the viewer at all
(`ProfileView.get_queryset` has no viewer parameter, faithfully to the
code), so the unpublished draft of user alice is served to every viewer,
not only to alice herself. -/
theorem profile_listing_ignores_viewer :
    ProfileView.get_queryset db3 aliceName = .ok [draft3] ∧
      draft3.is_published = false :=
  ⟨rfl, rfl⟩

def cat4 : Category := { id := 1, slug := techSlug, is_published := false }

def post4 : Post :=
  { id := 1, author := 1, category := 1, is_published := true, pub_date := 0 }

def db4 : DB :=
  { users := [], categories := [cat4], posts := [post4], comments := [] }

/-- C4 counterexample: a post whose published flag is true but whose
category is unpublished fails the visibility predicate, yet the detail
view serves it to an anonymous viewer (who is neither author nor
superuser) instead of returning 404. -/
theorem detail_404_cex :
    PostDetailView.get_object db4 none 1 = .ok post4 ∧
      (post4.is_published && categoryPublished db4 post4
        && decide (post4.pub_date ≤ 5)) = false ∧
      viewerIsAuthor none post4.author = false ∧
      viewerIsSuperuser none = false :=
  ⟨rfl, by decide, rfl, rfl⟩

/-- C4 amended: the detail view returns 404 iff no post with the given id
exists, or the post exists but its OWN published flag is false and the
viewer is neither its author nor a superuser; the category's published
flag and the publication timestamp are not consulted. -/
theorem detail_404_iff (db : DB) (v : Viewer) (post_id : Nat) :
    PostDetailView.get_object db v post_id = .error 404 ↔
      db.posts.find? (fun p => p.id == post_id) = none ∨
        (∃ p, db.posts.find? (fun q => q.id == post_id) = some p ∧
          p.is_published = false ∧ viewerIsAuthor v p.author = false ∧
          viewerIsSuperuser v = false) := by
  unfold PostDetailView.get_object
  cases hf : db.posts.find? (fun p => p.id == post_id) with
  | none => simp
  | some post =>
      simp only [Option.some.injEq, reduceCtorEq, false_or]
      constructor
      · intro h
        by_cases hc : (!post.is_published && !viewerIsAuthor v post.author
            && !viewerIsSuperuser v) = true
        · refine ⟨post, rfl, ?_⟩
          simpa [Bool.and_eq_true, and_assoc] using hc
        · rw [if_neg hc] at h
          exact absurd h (by simp)
      · rintro ⟨p, hp, h1, h2, h3⟩
        cases hp
        rw [if_pos (by simp [h1, h2, h3])]

/-- C5: an authenticated viewer who is not the post's author sends an edit
request: the database is returned unchanged and the response is a redirect
to the post's detail page (not an error page); and the owner check is the
predicate that is true iff the target's author equals the viewer. -/
theorem edit_post_nonowner (db : DB) (viewer : User) (post_id : Nat)
    (update : Post → Post) (p : Post)
    (hfind : db.posts.find? (fun q => q.id == post_id) = some p)
    (hne : p.author ≠ viewer.id) :
    EditPostView.handle db viewer post_id update =
        (.redirect (post_detail_url post_id), db) ∧
      (AuthorRequiredMixin.test_func p.author (some viewer) = true ↔
        p.author = viewer.id) := by
  constructor
  · simp [EditPostView.handle, hfind, AuthorRequiredMixin.test_func,
      viewerIsAuthor, hne]
  · simp [AuthorRequiredMixin.test_func, viewerIsAuthor]

def bobName : String := "bob"

def bob : User := { id := 2, username := bobName, is_superuser := false }

def post5 : Post :=
  { id := 1, author := 1, category := 1, is_published := true, pub_date := 2 }

def db5 : DB :=
  { users := [alice, bob], categories := [cat1], posts := [post5],
    comments := [] }

/-- C5 witness: bob (not the author of post 1) edits post 1; the database
is unchanged and the response redirects to the detail page. -/
theorem edit_post_nonowner_witness :
    EditPostView.handle db5 bob 1 id =
        (.redirect (post_detail_url 1), db5) ∧
      (AuthorRequiredMixin.test_func post5.author (some bob) = true ↔
        post5.author = bob.id) :=
  edit_post_nonowner db5 bob 1 id post5 (by decide) (by decide)

def posts25 : List Post := List.replicate 25 post1

/-- C6 counterexample: for a 25-item listing, the page parameter 0 settles
on page 3 (the last valid page), not on page 1 as the claim states. -/
theorem pagination_page_zero_cex :
    (CategoryPostListView.get_paginated_queryset posts25 (some pageZero)).1
        = 3 ∧
      (CategoryPostListView.get_paginated_queryset posts25
        (some pageZero)).1 ≠ 1 := by
  decide

/-- C6 amended: pagination uses a fixed page size of 10; 25 items make 3
pages; a non-numeric page parameter yields page 1; an out-of-range page
number — 99 but also 0 — yields the last valid page rather than an error;
the profile listing paginates exactly like the category listing. -/
theorem pagination_behaviour (l : List Post) (s : String)
    (hs : py_int s = none) (h25 : l.length = 25) :
    Paginator.num_pages l.length 10 = 3 ∧
      (CategoryPostListView.get_paginated_queryset l (some s)).1 = 1 ∧
      (CategoryPostListView.get_paginated_queryset l (some pageZero)).1 = 3 ∧
      (CategoryPostListView.get_paginated_queryset l
          (some pageNinetyNine)).1 = 3 ∧
      ProfileView.get_paginated_queryset l (some pageZero) =
        CategoryPostListView.get_paginated_queryset l (some pageZero) ∧
      (CategoryPostListView.get_paginated_queryset l
          (some pageNinetyNine)).2.length ≤ 10 := by
  have hnone : parse_page_param (some s) = none := by
    simp [parse_page_param, hs]
  have hz : parse_page_param (some pageZero) = some 0 := by decide
  have hn : parse_page_param (some pageNinetyNine) = some 99 := by decide
  refine ⟨by rw [h25]; decide, ?_, ?_, ?_, rfl, ?_⟩
  · show Paginator.get_page_number l.length 10 (parse_page_param (some s)) = 1
    rw [hnone]
    rfl
  · show Paginator.get_page_number l.length 10
      (parse_page_param (some pageZero)) = 3
    rw [hz, h25]
    decide
  · show Paginator.get_page_number l.length 10
      (parse_page_param (some pageNinetyNine)) = 3
    rw [hn, h25]
    decide
  · show (Paginator.page_items l 10
      (parse_page_param (some pageNinetyNine))).length ≤ 10
    exact List.length_take_le _ _

/-- C6 witness: the amended pagination statement instantiated at a
concrete 25-item listing and the non-numeric page parameter. -/
theorem pagination_behaviour_witness :
    Paginator.num_pages posts25.length 10 = 3 ∧
      (CategoryPostListView.get_paginated_queryset posts25
          (some pageAbc)).1 = 1 ∧
      (CategoryPostListView.get_paginated_queryset posts25
          (some pageZero)).1 = 3 ∧
      (CategoryPostListView.get_paginated_queryset posts25
          (some pageNinetyNine)).1 = 3 ∧
      ProfileView.get_paginated_queryset posts25 (some pageZero) =
        CategoryPostListView.get_paginated_queryset posts25 (some pageZero) ∧
      (CategoryPostListView.get_paginated_queryset posts25
          (some pageNinetyNine)).2.length ≤ 10 :=
  pagination_behaviour posts25 pageAbc (by decide) (by decide)

def postA7 : Post :=
  { id := 1, author := 1, category := 1, is_published := true, pub_date := 1 }

def postB7 : Post :=
  { id := 2, author := 1, category := 1, is_published := true, pub_date := 5 }

def db7 : DB :=
  { users := [], categories := [], posts := [postA7, postB7], comments := [] }

/-- C7 counterexample: the post_queries.py implementation, called with
annotation requested, returns the manager's order unchanged — here an
ascending pub_date order, so NOT ordered by publication timestamp
descending. -/
theorem postqueries_unordered_cex :
    PostQueries.get_post_queryset db7 db7.posts true true =
        [(postA7, some 0), (postB7, some 0)] ∧
      ¬ (PostQueries.get_post_queryset db7 db7.posts true true).Pairwise
          (fun a b => b.1.pub_date ≤ a.1.pub_date) := by
  refine ⟨rfl, ?_⟩
  intro h
  have heq : PostQueries.get_post_queryset db7 db7.posts true true =
      [(postA7, some 0), (postB7, some 0)] := rfl
  rw [heq] at h
  have h1 := (List.pairwise_cons.mp h).1 (postB7, some 0)
    (List.mem_cons_self _ _)
  exact absurd h1 (by decide)

/-- C7 amended: only the mixins.py implementation of `get_post_queryset`
orders by publication timestamp descending when annotation is requested;
the post_queries.py implementation applies no ordering (it maps the
annotation over the manager in its given order). -/
theorem mixins_annotated_ordered (db : DB) (manager : List Post) (fp : Bool)
    (now : Nat) :
    (Mixins.get_post_queryset db manager fp true now).Pairwise
        (fun a b => b.1.pub_date ≤ a.1.pub_date) ∧
      PostQueries.get_post_queryset db manager false true =
        manager.map (fun p => (p, some (allCommentCount db p))) := by
  refine ⟨?_, rfl⟩
  exact List.pairwise_map.mpr (pairwise_order_by_pub_date_desc _)

def newsSlug : String := "news"

/-- C8: when the category found for the requested slug has its published
flag false, the category listing raises Http404. -/
theorem category_unpublished_404 (db : DB) (slug : String) (now : Nat)
    (c : Category)
    (hfind : db.categories.find? (fun k => k.slug == slug) = some c)
    (hunpub : c.is_published = false) :
    CategoryPostListView.get_queryset db slug now = .error 404 := by
  simp [CategoryPostListView.get_queryset, hfind, hunpub]

def cat8 : Category := { id := 3, slug := newsSlug, is_published := false }

def db8 : DB :=
  { users := [], categories := [cat8], posts := [], comments := [] }

/-- C8 witness: a concrete unpublished category whose listing 404s. -/
theorem category_unpublished_404_witness :
    CategoryPostListView.get_queryset db8 newsSlug 7 = .error 404 :=
  category_unpublished_404 db8 newsSlug 7 cat8 (by decide) (by decide)

def post9 : Post :=
  { id := 1, author := 1, category := 1, is_published := true, pub_date := 0 }

def comment9 : Comment :=
  { id := 1, post_id := 1, author := 2, is_published := false }

def db9 : DB :=
  { users := [], categories := [], posts := [post9], comments := [comment9] }

/-- C9: the two implementations of `get_post_queryset` are not equivalent:
with annotation requested, the post_queries.py one attaches the count of
ALL of the post's comments, the mixins.py one attaches the count of only
the PUBLISHED ones, and on a database holding one unpublished comment
their outputs differ. -/
theorem query_builders_inequivalent :
    (∀ (db : DB) (manager : List Post),
        PostQueries.get_post_queryset db manager false true =
          manager.map (fun p => (p, some (allCommentCount db p)))) ∧
      (∀ (db : DB) (manager : List Post) (now : Nat),
        Mixins.get_post_queryset db manager false true now =
          (order_by_pub_date_desc manager).map
            (fun p => (p, some (publishedCommentCount db p)))) ∧
      Mixins.get_post_queryset db9 db9.posts false true 5 ≠
        PostQueries.get_post_queryset db9 db9.posts false true := by
  refine ⟨fun db manager => rfl, fun db manager now => rfl, ?_⟩
  decide

/-- C10: a comment edit or delete request whose comment id and post id do
not match any single comment (in particular a comment of a different
post) answers 404 and leaves the database unchanged. -/
theorem comment_cross_post_404 (db : DB) (viewer : User)
    (post_id comment_id : Nat) (update : Comment → Comment)
    (hnone : ∀ c ∈ db.comments,
      ¬(c.id = comment_id ∧ c.post_id = post_id)) :
    EditCommentView.handle db viewer post_id comment_id update =
        (.notFound, db) ∧
      DeleteCommentView.handle db viewer post_id comment_id =
        (.notFound, db) := by
  have hobj : CommentView.get_object db post_id comment_id = none := by
    rw [CommentView.get_object, List.find?_eq_none]
    intro c hc
    simp only [Bool.and_eq_true, beq_iff_eq]
    exact hnone c hc
  constructor
  · simp [EditCommentView.handle, hobj]
  · simp [DeleteCommentView.handle, hobj]

def comment10 : Comment :=
  { id := 5, post_id := 2, author := 1, is_published := true }

def db10 : DB :=
  { users := [alice], categories := [], posts := [], comments := [comment10] }

/-- C10 witness: comment 5 exists but belongs to post 2; an edit and a
delete addressed to post 1 / comment 5 both 404 without touching the
database. -/
theorem comment_cross_post_404_witness :
    EditCommentView.handle db10 alice 1 5 id = (.notFound, db10) ∧
      DeleteCommentView.handle db10 alice 1 5 = (.notFound, db10) :=
  comment_cross_post_404 db10 alice 1 5 id (by decide)
